import Mathlib

/-!
# Verification of the AudioManager playback/mute state synchronizer

Shallow embedding of `src/app/components/AudioManager.tsx`: a React component
owning two HTML audio elements (looping background track, one-shot easter-egg
effect track), a Web Audio context/analyser, and three booleans of React state
(`isMuted`, `isPlaying`, `easterEggActive`) plus a `firstToggleDoneRef`.

Modelling choices:
* Volumes and media time are rationals (`ℚ`); the element volume range [0,1]
  and the 0.05 fade step are exact rationals.
* Each operation is a pure function `AudioState → AudioState × List Action`
  returning the successor state and the ordered list of externally visible
  actions it performed (media-element commands, flag writes, DOM event
  dispatches).  MediaSession metadata writes and console logging are not
  modelled (no claim mentions them).
* Asynchronous `play()` promises are modelled by a `PlayResult` parameter
  giving the eventual outcome (fulfilled, rejected with `AbortError`, rejected
  otherwise); the `.then`/`.catch` continuation is applied immediately, which
  is faithful because every value those continuations read is either a local
  (`wasPlaying`) or a closure-captured render value, passed explicitly as a
  `view…` parameter where the capture matters.
* The `playing`/`pause` lifecycle listeners on the background element
  (lines 96-106) set `isPlaying` to the element's transport state; delivery of
  those queued events (and the resulting re-render) between two top-level
  operations is the function `settleEvents`.
* The `useEffect` on `[isMuted, easterEggActive]` (lines 302-323) is
  `muteSyncEffect`; React runs it after any render that changed one of those
  two values, in particular right after `toggleMute`'s `setIsMuted`.
-/

namespace AudioManager

/-- Eventual outcome of an asynchronous `HTMLMediaElement.play()` request:
fulfilled, rejected with a benign `AbortError` (supersession), or rejected
with any other error. -/
inductive PlayResult where
  | success
  | abortError
  | otherError
deriving DecidableEq, Repr

/-- Externally visible actions performed by the synchronizer, in program
order: commands on the two media elements, React state-flag writes, audio
context resumption, and DOM custom-event dispatches. -/
inductive Action where
  | bgPlay
  | bgPause
  | bgSetLoop (b : Bool)
  | bgSetVolume (v : ℚ)
  | effPlay
  | effPause
  | effSetVolume (v : ℚ)
  | effSeek (t : ℚ)
  | ctxResume
  | setMutedFlag (b : Bool)
  | setPlayingFlag (b : Bool)
  | setEasterEggFlag (b : Bool)
  | emit (name : String)
deriving DecidableEq, Repr

/-- State of the AudioManager component: the React state booleans, the
`firstToggleDoneRef` ref, the observable state of the two audio elements,
and the shared audio context's suspension state. -/
structure AudioState where
  /-- React state `isMuted`. -/
  isMuted : Bool
  /-- React state `isPlaying` (the cached PlayingFlag). -/
  isPlaying : Bool
  /-- React state `easterEggActive`. -/
  easterEggActive : Bool
  /-- `firstToggleDoneRef.current`. -/
  firstToggleDone : Bool
  /-- `backgroundMusicRef.current.paused` (true transport state). -/
  bgPaused : Bool
  /-- `backgroundMusicRef.current.volume`. -/
  bgVolume : ℚ
  /-- `backgroundMusicRef.current.loop`. -/
  bgLoop : Bool
  /-- `easterEggSoundRef.current.paused`. -/
  effPaused : Bool
  /-- `easterEggSoundRef.current.volume`. -/
  effVolume : ℚ
  /-- `easterEggSoundRef.current.currentTime`. -/
  effTime : ℚ
  /-- Whether the shared `AudioContext` is in the `suspended` state. -/
  ctxSuspended : Bool
deriving DecidableEq, Repr

/-- Delivery of the queued `playing`/`pause` lifecycle events of the
background element and the resulting re-render (lines 96-106): the cached
`isPlaying` flag ends up mirroring the element's actual transport state. -/
def settleEvents (s : AudioState) : AudioState :=
  { s with isPlaying := !s.bgPaused }

/-- The `useEffect` with dependencies `[isMuted, easterEggActive]`
(lines 302-323): when muted, both element volumes are set to 0; when
unmuted, the background volume is restored to 0.5, the effect volume is
set to 1.0 only if the easter egg is active and the effect element is not
paused, and the audio context is resumed if suspended. -/
def muteSyncEffect (s : AudioState) : AudioState × List Action :=
  if s.isMuted then
    ({ s with bgVolume := 0, effVolume := 0 },
     [Action.bgSetVolume 0, Action.effSetVolume 0])
  else
    let (s1, a1) :=
      if s.easterEggActive && !s.effPaused then
        ({ s with bgVolume := 1/2, effVolume := 1 },
         [Action.bgSetVolume (1/2), Action.effSetVolume 1])
      else
        ({ s with bgVolume := 1/2 }, [Action.bgSetVolume (1/2)])
    if s.ctxSuspended then
      ({ s1 with ctxSuspended := false }, a1 ++ [Action.ctxResume])
    else (s1, a1)

/-- `toggleMute` (lines 368-371) followed by the re-render's mute-sync
effect: the `audio-mute-toggled` custom event is dispatched first (line 369),
then `setIsMuted(prev => !prev)` flips the flag (line 370), and the
`[isMuted, easterEggActive]` effect applies the volume changes. -/
def toggleMute (s : AudioState) : AudioState × List Action :=
  let s1 := { s with isMuted := !s.isMuted }
  let r := muteSyncEffect s1
  (r.1, Action.emit "audio-mute-toggled" :: Action.setMutedFlag (!s.isMuted) :: r.2)

/-- `resumeBackgroundMusic` (lines 575-625).  `viewPlaying` is the value of
the closure-captured render variable `isPlaying` at the call site (for a
direct call from the current render this is the state's `isPlaying`; inside
`playEasterEggSound`'s rejection handler it is the value captured when
`playEasterEggSound` was invoked).  `outcome` is the eventual result of the
issued `play()`; on a non-`AbortError` rejection the handler does
`setIsPlaying(false)`. -/
def resumeBackgroundMusic (viewPlaying : Bool) (outcome : PlayResult)
    (s : AudioState) : AudioState × List Action :=
  if !viewPlaying then (s, [])
  else if !s.bgPaused then (s, [])
  else
    let (s1, a1) :=
      if !s.bgLoop then ({ s with bgLoop := true }, [Action.bgSetLoop true])
      else (s, [])
    let (s2, a2) :=
      if s1.ctxSuspended then
        ({ s1 with ctxSuspended := false }, a1 ++ [Action.ctxResume])
      else (s1, a1)
    match outcome with
    | PlayResult.success => ({ s2 with bgPaused := false }, a2 ++ [Action.bgPlay])
    | PlayResult.abortError => (s2, a2 ++ [Action.bgPlay])
    | PlayResult.otherError =>
        ({ s2 with isPlaying := false }, a2 ++ [Action.bgPlay])

/-- The interaction-triggered autoplay retry handler stored in
`attemptPlayOnInteractionRef` (lines 143-164), registered for `click`,
`keydown` and `touchstart`: it issues a play request only when the cached
flags say not playing, not muted, and no user toggle has happened yet; on
success it sets `isPlaying` and deregisters itself (deregistration is not
modelled — the guard alone already makes later invocations no-ops). -/
def attemptPlayOnInteraction (outcome : PlayResult) (s : AudioState) :
    AudioState × List Action :=
  if !s.isPlaying && !s.isMuted && !s.firstToggleDone then
    match outcome with
    | PlayResult.success =>
        ({ s with bgPaused := false, isPlaying := true }, [Action.bgPlay])
    | _ => (s, [Action.bgPlay])
  else (s, [])

/-- `togglePlayPause` (lines 374-433).  First-toggle special case
(lines 380-394): if no toggle has happened and the element is not paused,
pause synchronously, force `setIsPlaying(false)`, set the first-toggle ref
and dispatch, then return.  Otherwise (lines 399-432): if paused, resume the
context when suspended and issue play (success is confirmed later by the
`playing` lifecycle event, so `isPlaying` is not written here; a
non-`AbortError` rejection only logs); if playing, pause and force
`setIsPlaying(false)`.  Either way the first-toggle ref is set and the
`audio-playpause-toggled` event dispatched last. -/
def togglePlayPause (outcome : PlayResult) (s : AudioState) :
    AudioState × List Action :=
  if !s.firstToggleDone && !s.bgPaused then
    ({ s with bgPaused := true, isPlaying := false, firstToggleDone := true },
     [Action.bgPause, Action.setPlayingFlag false,
      Action.emit "audio-playpause-toggled"])
  else if s.bgPaused then
    let (s1, a1) :=
      if s.ctxSuspended then
        ({ s with ctxSuspended := false }, [Action.ctxResume])
      else (s, [])
    let s2 :=
      match outcome with
      | PlayResult.success => { s1 with bgPaused := false, firstToggleDone := true }
      | _ => { s1 with firstToggleDone := true }
    (s2, a1 ++ [Action.bgPlay, Action.emit "audio-playpause-toggled"])
  else
    ({ s with bgPaused := true, isPlaying := false, firstToggleDone := true },
     [Action.bgPause, Action.setPlayingFlag false,
      Action.emit "audio-playpause-toggled"])

/-- `playEasterEggSound` (lines 435-498).  Marks the easter egg active,
remembers `wasPlaying := isPlaying` and pauses the background if it was
playing, sets the effect volume from the mute flag, seeks the effect to 0
and issues its play.  `effOutcome` is that play's eventual result; on any
rejection the handler resumes the background when `wasPlaying` (through
`resumeBackgroundMusic` with the captured `isPlaying` view, whose own play
outcome is `resumeOutcome`) and clears the easter-egg flag (lines 479-486). -/
def playEasterEggSound (effOutcome resumeOutcome : PlayResult)
    (s : AudioState) : AudioState × List Action :=
  let wasPlaying := s.isPlaying
  let s1 := { s with easterEggActive := true }
  let (s2, a2) :=
    if s.isPlaying then ({ s1 with bgPaused := true }, [Action.bgPause])
    else (s1, [])
  let s3 := { s2 with effVolume := if s.isMuted then 0 else 1, effTime := 0 }
  let a3 := a2 ++ [Action.effSetVolume (if s.isMuted then 0 else 1),
                   Action.effSeek 0, Action.effPlay]
  match effOutcome with
  | PlayResult.success =>
      ({ s3 with effPaused := false }, Action.setEasterEggFlag true :: a3)
  | _ =>
      let (s4, a4) :=
        if wasPlaying then resumeBackgroundMusic wasPlaying resumeOutcome s3
        else (s3, [])
      ({ s4 with easterEggActive := false },
       Action.setEasterEggFlag true :: a3 ++ a4 ++ [Action.setEasterEggFlag false])

/-- `stopEasterEggSound(false)` (lines 524-532): pause the effect, reset its
position, call `resumeBackgroundMusic` (with the calling render's captured
`isPlaying` view `viewPlaying` and play outcome `resumeOutcome`), and clear
the easter-egg flag.  MediaSession restoration is not modelled. -/
def stopEasterEggSoundNoFade (viewPlaying : Bool) (resumeOutcome : PlayResult)
    (s : AudioState) : AudioState × List Action :=
  let s1 := { s with effPaused := true, effTime := 0 }
  let r := resumeBackgroundMusic viewPlaying resumeOutcome s1
  ({ r.1 with easterEggActive := false },
   Action.effPause :: Action.effSeek 0 :: r.2 ++ [Action.setEasterEggFlag false])

/-- One tick of the 50ms fade interval started by `stopEasterEggSound(true)`
(lines 503-523).  `viewMuted` and `viewPlaying` are the render-closure values
of `isMuted` and `isPlaying` captured when `stopEasterEggSound` was called.
While the effect volume exceeds the 0.05 floor and the captured mute view is
false, decrement the volume by 0.05; otherwise pause the effect, reset its
volume to 1.0 when unmuted, clear the interval, resume the background and
clear the easter-egg flag. -/
def fadeStep (viewMuted viewPlaying : Bool) (resumeOutcome : PlayResult)
    (s : AudioState) : AudioState × List Action :=
  if 1/20 < s.effVolume ∧ viewMuted = false then
    ({ s with effVolume := s.effVolume - 1/20 },
     [Action.effSetVolume (s.effVolume - 1/20)])
  else
    let (s1, a1) :=
      if viewMuted then ({ s with effPaused := true }, [Action.effPause])
      else ({ s with effPaused := true, effVolume := 1 },
            [Action.effPause, Action.effSetVolume 1])
    let r := resumeBackgroundMusic viewPlaying resumeOutcome s1
    ({ r.1 with easterEggActive := false },
     a1 ++ r.2 ++ [Action.setEasterEggFlag false])

/-- A concrete state used to exercise the definitions: unmuted, background
playing at its 0.5 baseline, effect idle with its volume left at 1.0 (as it
is after a successful effect ended without fade-out). -/
def sampleState : AudioState :=
  { isMuted := false
    isPlaying := true
    easterEggActive := false
    firstToggleDone := true
    bgPaused := false
    bgVolume := 1/2
    bgLoop := true
    effPaused := true
    effVolume := 1
    effTime := 0
    ctxSuspended := false }

example : (muteSyncEffect { sampleState with isMuted := true }).1.bgVolume = 0 := by
  norm_num [muteSyncEffect, sampleState]

/-- C1 (counterexample): from the state `sampleState` — unmuted, effect idle
with its volume still at 1.0 — toggling mute twice does NOT return the effect
track's volume to its pre-toggle value: the first toggle zeroes it and the
second leaves it at 0 because the easter egg is not active, so the claim's
universally quantified volume round trip is false. -/
theorem toggleMute_twice_not_volume_roundtrip :
    (toggleMute (toggleMute sampleState).1).1.effVolume ≠ sampleState.effVolume := by
  decide

/-- C1 (amended): for every state whose two volumes already equal the values
the mute synchronizer prescribes for it (muted: both 0; unmuted: background
at the 0.5 baseline, effect at 1.0 exactly when the easter egg is active and
the effect element is not paused, otherwise 0), toggling mute twice returns
both tracks' volumes to their pre-toggle values; and neither the first nor
the second call changes either track's transport (paused) state. -/
theorem toggleMute_twice_roundtrip (s : AudioState)
    (hbg : s.bgVolume = if s.isMuted then 0 else 1/2)
    (heff : s.effVolume =
      if s.isMuted then 0
      else if s.easterEggActive && !s.effPaused then 1 else 0) :
    ((toggleMute (toggleMute s).1).1.bgVolume = s.bgVolume) ∧
    ((toggleMute (toggleMute s).1).1.effVolume = s.effVolume) ∧
    ((toggleMute (toggleMute s).1).1.bgPaused = s.bgPaused) ∧
    ((toggleMute (toggleMute s).1).1.effPaused = s.effPaused) ∧
    ((toggleMute s).1.bgPaused = s.bgPaused) ∧
    ((toggleMute s).1.effPaused = s.effPaused) := by
  obtain ⟨m, p, e, f, bp, bv, bl, ep, ev, et, cs⟩ := s
  cases m <;> cases e <;> cases ep <;> cases cs <;>
    simp_all [toggleMute, muteSyncEffect]

/-- Concrete state for the C1 witness: unmuted, playing, volumes at exactly
the values the mute synchronizer prescribes (background 0.5, effect 0). -/
def canonicalVolumeState : AudioState :=
  { sampleState with effVolume := 0 }

/-- C1 (witness): the amended round trip evaluated at
`canonicalVolumeState`. -/
theorem toggleMute_twice_roundtrip_witness :
    ((toggleMute (toggleMute canonicalVolumeState).1).1.bgVolume =
        canonicalVolumeState.bgVolume) ∧
    ((toggleMute (toggleMute canonicalVolumeState).1).1.effVolume =
        canonicalVolumeState.effVolume) ∧
    ((toggleMute (toggleMute canonicalVolumeState).1).1.bgPaused =
        canonicalVolumeState.bgPaused) ∧
    ((toggleMute (toggleMute canonicalVolumeState).1).1.effPaused =
        canonicalVolumeState.effPaused) ∧
    ((toggleMute canonicalVolumeState).1.bgPaused =
        canonicalVolumeState.bgPaused) ∧
    ((toggleMute canonicalVolumeState).1.effPaused =
        canonicalVolumeState.effPaused) :=
  toggleMute_twice_roundtrip canonicalVolumeState
    (by norm_num [canonicalVolumeState, sampleState])
    (by norm_num [canonicalVolumeState, sampleState])

/-- C2: `toggleMute` flips the mute flag; the new state being muted means
both element volumes become 0; the new state being unmuted means the
background volume becomes the 0.5 baseline and the effect volume becomes
1.0 exactly when the easter egg is active and the effect element is not
paused (otherwise it is left unchanged); and the call never starts or stops
either track's transport nor touches the cached playing flag. -/
theorem toggleMute_postcondition (s : AudioState) :
    ((toggleMute s).1.isMuted = !s.isMuted) ∧
    ((toggleMute s).1.bgVolume = if s.isMuted then (1/2 : ℚ) else 0) ∧
    ((toggleMute s).1.effVolume =
        if s.isMuted then
          (if s.easterEggActive && !s.effPaused then (1 : ℚ) else s.effVolume)
        else 0) ∧
    ((toggleMute s).1.bgPaused = s.bgPaused) ∧
    ((toggleMute s).1.effPaused = s.effPaused) ∧
    ((toggleMute s).1.isPlaying = s.isPlaying) := by
  obtain ⟨m, p, e, f, bp, bv, bl, ep, ev, et, cs⟩ := s
  cases m <;> cases e <;> cases ep <;> cases cs <;>
    simp [toggleMute, muteSyncEffect]

/-- C3: whenever the cached playing flag is false, or the background element
is not actually paused, `resumeBackgroundMusic` leaves the state unchanged
and performs no action at all (in particular it issues no play request). -/
theorem resumeBackgroundMusic_noop (outcome : PlayResult) (s : AudioState)
    (h : s.isPlaying = false ∨ s.bgPaused = false) :
    resumeBackgroundMusic s.isPlaying outcome s = (s, []) := by
  rcases h with h | h <;> cases hp : s.isPlaying <;>
    simp_all [resumeBackgroundMusic]

/-- Concrete state for the C3 witness: intent is not to play. -/
def resumeIdleState : AudioState :=
  { sampleState with isPlaying := false, bgPaused := true }

/-- C3 (witness): the no-op evaluated at `resumeIdleState`. -/
theorem resumeBackgroundMusic_noop_witness :
    resumeBackgroundMusic resumeIdleState.isPlaying PlayResult.success
      resumeIdleState = (resumeIdleState, []) :=
  resumeBackgroundMusic_noop PlayResult.success resumeIdleState (Or.inl rfl)

/-- C4: when the cached playing flag is true and the background element is
paused, `resumeBackgroundMusic` ends with the loop flag true and the audio
context resumed, its action trace is exactly the loop re-enable (when the
loop flag had been cleared), then the context resumption (when it was
suspended), then the play request — so the loop is re-enabled before play is
issued — and a rejection other than `AbortError` clears the cached playing
flag. -/
theorem resumeBackgroundMusic_recovery (outcome : PlayResult) (s : AudioState)
    (hp : s.isPlaying = true) (hpa : s.bgPaused = true) :
    ((resumeBackgroundMusic s.isPlaying outcome s).1.bgLoop = true) ∧
    ((resumeBackgroundMusic s.isPlaying outcome s).1.ctxSuspended = false) ∧
    ((resumeBackgroundMusic s.isPlaying outcome s).2 =
        (if s.bgLoop then [] else [Action.bgSetLoop true]) ++
        (if s.ctxSuspended then [Action.ctxResume] else []) ++
        [Action.bgPlay]) ∧
    (outcome = PlayResult.otherError →
        (resumeBackgroundMusic s.isPlaying outcome s).1.isPlaying = false) := by
  obtain ⟨m, p, e, f, bp, bv, bl, ep, ev, et, cs⟩ := s
  subst hp hpa
  cases bl <;> cases cs <;> cases outcome <;>
    simp [resumeBackgroundMusic]

/-- Concrete state for the C4 witness: intent playing, element paused, loop
transiently disabled, context suspended. -/
def resumeRecoveryState : AudioState :=
  { sampleState with
      isPlaying := true
      bgPaused := true
      bgLoop := false
      ctxSuspended := true }

/-- C4 (witness): the recovery behavior evaluated at `resumeRecoveryState`
with a non-benign play failure, every hypothesis discharged there. -/
theorem resumeBackgroundMusic_recovery_witness :
    ((resumeBackgroundMusic resumeRecoveryState.isPlaying PlayResult.otherError
        resumeRecoveryState).1.bgLoop = true) ∧
    ((resumeBackgroundMusic resumeRecoveryState.isPlaying PlayResult.otherError
        resumeRecoveryState).1.ctxSuspended = false) ∧
    ((resumeBackgroundMusic resumeRecoveryState.isPlaying PlayResult.otherError
        resumeRecoveryState).2 =
        [Action.bgSetLoop true] ++ [Action.ctxResume] ++ [Action.bgPlay]) ∧
    ((resumeBackgroundMusic resumeRecoveryState.isPlaying PlayResult.otherError
        resumeRecoveryState).1.isPlaying = false) := by
  have h := resumeBackgroundMusic_recovery PlayResult.otherError
    resumeRecoveryState rfl rfl
  exact ⟨h.1, h.2.1,
    by simpa [resumeRecoveryState, sampleState] using h.2.2.1, h.2.2.2 rfl⟩

/-- C5: if the effect track's play request is rejected with an error other
than the benign `AbortError`, `playEasterEggSound` always ends with the
easter-egg flag cleared; and when the background had been playing
immediately before the call (cached flag true, element not paused), the
rejection handler resumes it — a play request for the background appears in
the trace, and with that request succeeding the background element ends up
not paused, exactly its pre-call transport state. -/
theorem playEasterEggSound_failure_atomicity :
    (∀ (s : AudioState) (ro : PlayResult),
        (playEasterEggSound PlayResult.otherError ro s).1.easterEggActive
          = false) ∧
    (∀ s : AudioState, s.isPlaying = true → s.bgPaused = false →
        (Action.bgPlay ∈
            (playEasterEggSound PlayResult.otherError PlayResult.success s).2) ∧
        ((playEasterEggSound PlayResult.otherError PlayResult.success
            s).1.bgPaused = false)) := by
  constructor
  · intro s ro
    obtain ⟨m, p, e, f, bp, bv, bl, ep, ev, et, cs⟩ := s
    cases p <;> cases bp <;> cases bl <;> cases cs <;> cases ro <;>
      simp [playEasterEggSound, resumeBackgroundMusic]
  · intro s hp hpa
    obtain ⟨m, p, e, f, bp, bv, bl, ep, ev, et, cs⟩ := s
    subst hp hpa
    cases bl <;> cases cs <;>
      simp [playEasterEggSound, resumeBackgroundMusic]

/-- Concrete state for the C5 witness: background audibly playing before
the effect is triggered. -/
def effectFailureState : AudioState :=
  { sampleState with easterEggActive := false }

/-- C5 (witness): the failure branch evaluated at `effectFailureState`,
hypotheses discharged there. -/
theorem playEasterEggSound_failure_atomicity_witness :
    ((playEasterEggSound PlayResult.otherError PlayResult.success
        effectFailureState).1.easterEggActive = false) ∧
    (Action.bgPlay ∈
        (playEasterEggSound PlayResult.otherError PlayResult.success
          effectFailureState).2) ∧
    ((playEasterEggSound PlayResult.otherError PlayResult.success
        effectFailureState).1.bgPaused = false) :=
  ⟨playEasterEggSound_failure_atomicity.1 effectFailureState PlayResult.success,
   (playEasterEggSound_failure_atomicity.2 effectFailureState rfl rfl).1,
   (playEasterEggSound_failure_atomicity.2 effectFailureState rfl rfl).2⟩

/-- C6 (code evaluated at the failing input): from `sampleState` — the
background track audibly playing — a successful `playEasterEggSound`
followed by delivery of the background element's `pause` lifecycle event
and then `stopEasterEggSound(false)` leaves the background element paused:
the pause event listener has already cleared the cached playing flag, so
`resumeBackgroundMusic` inside the stop call returns without issuing play.
The claimed round trip (restoring the pre-call transport state) therefore
fails on the code. -/
theorem effect_roundtrip_leaves_background_paused :
    sampleState.bgPaused = false ∧
    (stopEasterEggSoundNoFade
        (settleEvents
          (playEasterEggSound PlayResult.success PlayResult.success
            sampleState).1).isPlaying
        PlayResult.success
        (settleEvents
          (playEasterEggSound PlayResult.success PlayResult.success
            sampleState).1)).1.bgPaused = true := by
  constructor
  · rfl
  · rfl

/-- The decrementing branch of `fadeStep`, taken while the effect volume is
above the 0.05 floor and the captured mute view is false. -/
theorem fadeStep_decrement (viewMuted viewPlaying : Bool) (ro : PlayResult)
    (s : AudioState) (h : 1/20 < s.effVolume) (hm : viewMuted = false) :
    fadeStep viewMuted viewPlaying ro s =
      ({ s with effVolume := s.effVolume - 1/20 },
       [Action.effSetVolume (s.effVolume - 1/20)]) := by
  subst hm
  rw [fadeStep, if_pos ⟨h, rfl⟩]

/-- The terminating branch of `fadeStep`: its trace starts with the
effect-pause command. -/
theorem fadeStep_end_head (viewMuted viewPlaying : Bool) (ro : PlayResult)
    (s : AudioState) (h : ¬(1/20 < s.effVolume ∧ viewMuted = false)) :
    (fadeStep viewMuted viewPlaying ro s).2.head?
      = some Action.effPause := by
  rw [fadeStep, if_neg h]
  cases viewMuted <;> simp

/-- Concrete state for the C7 counterexample: `stopEasterEggSound(true)`
was called while muted (the mute synchronizer holds the effect volume at 0,
easter egg active, effect element playing, background already paused), so
the fade interval's closure captured `isMuted = true`. -/
def mutedFadeState : AudioState :=
  { isMuted := true
    isPlaying := false
    easterEggActive := true
    firstToggleDone := true
    bgPaused := true
    bgVolume := 0
    bgLoop := true
    effPaused := false
    effVolume := 0
    effTime := 0
    ctxSuspended := false }

/-- C7 (counterexample): an unmute delivered between fade start and the
next tick refutes the claim that the transport pause is never issued before
the effect volume has reached at or below the 0.05 floor.  From
`mutedFadeState`, `toggleMute` (the unmute) runs the mute synchronizer,
which restores the effect volume to 1.0 (easter egg active, element
playing); the following fade tick still runs with the interval closure's
stale captured mute view `true`, so it skips the decrement guard and issues
the effect-pause command as its first action while the volume is 1.0,
strictly above the 0.05 floor. -/
theorem fadeStep_pause_above_floor :
    (1/20 : ℚ) < (toggleMute mutedFadeState).1.effVolume ∧
    (fadeStep true false PlayResult.success
        (toggleMute mutedFadeState).1).2.head? = some Action.effPause := by
  constructor
  · norm_num [toggleMute, muteSyncEffect, mutedFadeState]
  · exact fadeStep_end_head true false PlayResult.success _ (by simp)

/-- C7 (amended): one tick of the `stopEasterEggSound(true)` fade interval,
restricted to fades not interleaved with mute toggles — formally, to states
whose effect volume respects the mute discipline the fade started under
(captured muted view implies volume already at most the 0.05 floor, which
holds at fade start since the mute synchronizer keeps the effect volume at
0 while muted): if the tick does not issue the effect-pause command, it
decrements the effect volume by exactly 0.05 and the volume does not
increase; if it does issue the pause, the volume had already reached at or
below the 0.05 floor and the pause is the first command of the tick (in
particular it precedes the volume reset to 1.0). -/
theorem fadeStep_monotone (viewMuted viewPlaying : Bool) (ro : PlayResult)
    (s : AudioState) (hinv : viewMuted = true → s.effVolume ≤ 1/20) :
    (Action.effPause ∉ (fadeStep viewMuted viewPlaying ro s).2 →
        (fadeStep viewMuted viewPlaying ro s).1.effVolume
            = s.effVolume - 1/20 ∧
        (fadeStep viewMuted viewPlaying ro s).1.effVolume ≤ s.effVolume) ∧
    (Action.effPause ∈ (fadeStep viewMuted viewPlaying ro s).2 →
        s.effVolume ≤ 1/20 ∧
        (fadeStep viewMuted viewPlaying ro s).2.head?
            = some Action.effPause) := by
  by_cases hc : 1/20 < s.effVolume ∧ viewMuted = false
  · rw [fadeStep_decrement viewMuted viewPlaying ro s hc.1 hc.2]
    constructor
    · intro _
      exact ⟨rfl, by simp⟩
    · intro hmem
      exfalso
      simp at hmem
  · have hle : s.effVolume ≤ 1/20 := by
      rcases Bool.eq_false_or_eq_true viewMuted with hm | hm
      · exact hinv hm
      · have := not_and.mp hc
        exact le_of_not_lt (fun hlt => this hlt hm)
    have hhead := fadeStep_end_head viewMuted viewPlaying ro s hc
    constructor
    · intro hmem
      exfalso
      exact hmem (List.mem_of_mem_head? hhead)
    · intro _
      exact ⟨hle, hhead⟩

/-- Concrete state for the C7 witness: mid-fade, effect audible at full
volume, fade closure captured unmuted. -/
def fadeMidState : AudioState :=
  { sampleState with
      easterEggActive := true
      effPaused := false
      bgPaused := true
      isPlaying := false }

/-- C7 (witness): a fade tick at `fadeMidState` with the unmuted view,
hypotheses discharged there: the tick issues no pause and decrements the
volume from 1.0 to 0.95 without increasing it. -/
theorem fadeStep_monotone_witness :
    ((fadeStep false false PlayResult.success fadeMidState).1.effVolume
        = fadeMidState.effVolume - 1/20) ∧
    ((fadeStep false false PlayResult.success fadeMidState).1.effVolume
        ≤ fadeMidState.effVolume) :=
  (fadeStep_monotone false false PlayResult.success fadeMidState
      (by simp)).1
    (by
      rw [fadeStep_decrement false false PlayResult.success fadeMidState
        (by norm_num [fadeMidState, sampleState]) rfl]
      decide)

/-- C8: when autoplay has succeeded (background element not paused) and no
user toggle has occurred yet, `togglePlayPause` takes the first-toggle
special case: within the same call it pauses the background element, forces
the cached playing flag to false (not waiting for the asynchronous lifecycle
signal), marks the first toggle done, and issues no play request; and from
any state in which the first toggle is done, the interaction-triggered
autoplay retry handler is a complete no-op (no state change, no play
request), so no subsequent click/keydown/touchstart restarts playback. -/
theorem first_toggle_synchronous_pause (o : PlayResult) (s : AudioState)
    (hft : s.firstToggleDone = false) (hpl : s.bgPaused = false) :
    ((togglePlayPause o s).1.bgPaused = true) ∧
    ((togglePlayPause o s).1.isPlaying = false) ∧
    ((togglePlayPause o s).1.firstToggleDone = true) ∧
    (Action.bgPlay ∉ (togglePlayPause o s).2) ∧
    (∀ (t : AudioState) (o2 : PlayResult), t.firstToggleDone = true →
        attemptPlayOnInteraction o2 t = (t, [])) := by
  refine ⟨?_, ?_, ?_, ?_, ?_⟩
  · simp [togglePlayPause, hft, hpl]
  · simp [togglePlayPause, hft, hpl]
  · simp [togglePlayPause, hft, hpl]
  · simp [togglePlayPause, hft, hpl]
  · intro t o2 ht
    simp [attemptPlayOnInteraction, ht]

/-- Concrete state for the C8 witness: autoplay succeeded, no toggle yet. -/
def autoplayState : AudioState :=
  { sampleState with firstToggleDone := false }

/-- C8 (witness): the first-toggle pause evaluated at `autoplayState`, and
the retry handler's no-op evaluated at the resulting state, hypotheses
discharged there. -/
theorem first_toggle_synchronous_pause_witness :
    ((togglePlayPause PlayResult.success autoplayState).1.bgPaused = true) ∧
    ((togglePlayPause PlayResult.success autoplayState).1.isPlaying
        = false) ∧
    ((togglePlayPause PlayResult.success autoplayState).1.firstToggleDone
        = true) ∧
    (Action.bgPlay ∉ (togglePlayPause PlayResult.success autoplayState).2) ∧
    (attemptPlayOnInteraction PlayResult.success
        (togglePlayPause PlayResult.success autoplayState).1 =
      ((togglePlayPause PlayResult.success autoplayState).1, [])) := by
  have h := first_toggle_synchronous_pause PlayResult.success autoplayState
    rfl rfl
  exact ⟨h.1, h.2.1, h.2.2.1, h.2.2.2.1,
    h.2.2.2.2 (togglePlayPause PlayResult.success autoplayState).1
      PlayResult.success h.2.2.1⟩

/-- C9 (counterexample): at the concrete state `sampleState`, the trace of
`toggleMute` places the dispatch of the `audio-mute-toggled` notification
strictly before the write that flips the mute flag, so listeners run while
MuteFlag still holds its old value — refuting the claim that the
notification is emitted after the mute toggle. -/
theorem toggleMute_emits_before_flip :
    List.findIdx (fun a => a == Action.emit "audio-mute-toggled")
        (toggleMute sampleState).2 <
      List.findIdx (fun a => a == Action.setMutedFlag true)
        (toggleMute sampleState).2 := by
  decide

/-- C9 (amended): every call to `toggleMute` dispatches the
`audio-mute-toggled` notification immediately BEFORE flipping MuteFlag,
and every call to `togglePlayPause` dispatches the
`audio-playpause-toggled` notification as its last action, after the
play/pause toggle has been applied. -/
theorem notification_emission_points :
    (∀ s : AudioState, ∃ rest, (toggleMute s).2 =
        Action.emit "audio-mute-toggled" ::
          Action.setMutedFlag (!s.isMuted) :: rest) ∧
    (∀ (o : PlayResult) (s : AudioState),
        (togglePlayPause o s).2.getLast?
          = some (Action.emit "audio-playpause-toggled")) := by
  constructor
  · intro s
    exact ⟨(muteSyncEffect { s with isMuted := !s.isMuted }).2, rfl⟩
  · intro o s
    obtain ⟨m, p, e, f, bp, bv, bl, ep, ev, et, cs⟩ := s
    cases f <;> cases bp <;> cases cs <;> cases o <;>
      simp [togglePlayPause]

/-- C10: every completed call to `togglePlayPause` — whichever branch it
takes, a first play just as much as a first pause — leaves the first-toggle
flag true; no other operation of the synchronizer ever changes that flag;
and whenever the flag is true the interaction-triggered autoplay retry
handler changes nothing and issues no play request. -/
theorem firstToggleDone_permanent :
    (∀ (o : PlayResult) (s : AudioState),
        (togglePlayPause o s).1.firstToggleDone = true) ∧
    (∀ s : AudioState,
        (toggleMute s).1.firstToggleDone = s.firstToggleDone) ∧
    (∀ (eo ro : PlayResult) (s : AudioState),
        (playEasterEggSound eo ro s).1.firstToggleDone
          = s.firstToggleDone) ∧
    (∀ (vp : Bool) (ro : PlayResult) (s : AudioState),
        (stopEasterEggSoundNoFade vp ro s).1.firstToggleDone
          = s.firstToggleDone) ∧
    (∀ (vm vp : Bool) (ro : PlayResult) (s : AudioState),
        (fadeStep vm vp ro s).1.firstToggleDone = s.firstToggleDone) ∧
    (∀ (vp : Bool) (ro : PlayResult) (s : AudioState),
        (resumeBackgroundMusic vp ro s).1.firstToggleDone
          = s.firstToggleDone) ∧
    (∀ (o : PlayResult) (s : AudioState),
        (attemptPlayOnInteraction o s).1.firstToggleDone
          = s.firstToggleDone) ∧
    (∀ s : AudioState, (settleEvents s).firstToggleDone
          = s.firstToggleDone) ∧
    (∀ (o : PlayResult) (s : AudioState), s.firstToggleDone = true →
        attemptPlayOnInteraction o s = (s, [])) := by
  have hres : ∀ (vp : Bool) (ro : PlayResult) (s : AudioState),
      (resumeBackgroundMusic vp ro s).1.firstToggleDone
        = s.firstToggleDone := by
    intro vp ro s
    obtain ⟨m, p, e, f, bp, bv, bl, ep, ev, et, cs⟩ := s
    cases vp <;> cases bp <;> cases bl <;> cases cs <;> cases ro <;>
      simp [resumeBackgroundMusic]
  refine ⟨?_, ?_, ?_, ?_, ?_, ?_, ?_, ?_, ?_⟩
  · intro o s
    obtain ⟨m, p, e, f, bp, bv, bl, ep, ev, et, cs⟩ := s
    cases f <;> cases bp <;> cases cs <;> cases o <;>
      simp [togglePlayPause]
  · intro s
    obtain ⟨m, p, e, f, bp, bv, bl, ep, ev, et, cs⟩ := s
    cases m <;> cases e <;> cases ep <;> cases cs <;>
      simp [toggleMute, muteSyncEffect]
  · intro eo ro s
    cases hp : s.isPlaying <;> cases eo <;>
      simp [playEasterEggSound, hp, hres]
  · intro vp ro s
    simp [stopEasterEggSoundNoFade, hres]
  · intro vm vp ro s
    by_cases hc : 1/20 < s.effVolume ∧ vm = false
    · rw [fadeStep_decrement vm vp ro s hc.1 hc.2]
    · rw [fadeStep, if_neg hc]
      cases vm <;> simp [hres]
  · exact hres
  · intro o s
    cases ho : (!s.isPlaying && !s.isMuted && !s.firstToggleDone) <;>
      cases o <;> simp [attemptPlayOnInteraction, ho]
  · intro s
    rfl
  · intro o s hft
    simp [attemptPlayOnInteraction, hft]

/-- Concrete state for the C10 witness. -/
def toggledState : AudioState :=
  { sampleState with isPlaying := false, bgPaused := true }

/-- C10 (witness): the final conjunct of the permanence theorem evaluated
at `toggledState`, whose first-toggle flag is true, discharging the
hypothesis there; plus the flag after a toggle from that state. -/
theorem firstToggleDone_permanent_witness :
    (attemptPlayOnInteraction PlayResult.success toggledState
        = (toggledState, [])) ∧
    ((togglePlayPause PlayResult.success toggledState).1.firstToggleDone
        = true) :=
  ⟨firstToggleDone_permanent.2.2.2.2.2.2.2.2 PlayResult.success
      toggledState rfl,
   firstToggleDone_permanent.1 PlayResult.success toggledState⟩

end AudioManager
